import Mathlib

/-!
Verification of the Route Interception & Scenario Execution Engine of the
`storage` frontend-verification repository.

The repository consists of four Playwright scripts
(`frontend_verification_script.py`, `frontend-verification/verify_user_type_dropdown.py`,
`frontend-verification/verify_users_tab.py`, `verification/verify_pagination.py`).
Each script registers route-interception rules (`page.route(pattern, responder)`),
navigates, performs a sequence of interaction/assertion steps, and captures
screenshots.  The pattern matcher, the route dispatch and the polling
assertions live in the Playwright layer (outside `src/`), so those parts are
modelled from the spec; the scripts' route tables, fixture payloads, step
sequences and error-handling structure are embedded verbatim from the source.
-/

namespace Harness

/-- Tokens of a route glob pattern: a literal character, `?` (any single
character except `/`), `*` (any run of characters except `/`), and `**`
(any run of characters including `/`). -/
inductive GlobTok where
  | lit (c : Char)
  | one
  | anySeg
  | anyAll
deriving DecidableEq

/-- Modelled from the spec: route pattern syntax (spec section 6) — a URL glob
with `*` and `**` wildcards (and `?` single-character wildcard), as consumed by
the scripts' `page.route` calls; the glob-to-matcher translation itself is in
the Playwright layer, not under `src/`. -/
def parseGlob : List Char → List GlobTok
  | [] => []
  | '*' :: '*' :: r => GlobTok.anyAll :: parseGlob r
  | '*' :: r => GlobTok.anySeg :: parseGlob r
  | '?' :: r => GlobTok.one :: parseGlob r
  | c :: r => GlobTok.lit c :: parseGlob r

/-- Suffixes of a character list reachable by dropping a (possibly empty)
prefix that contains no `/` — the strings a single `*` wildcard can skip. -/
def nonSlashTails : List Char → List (List Char)
  | [] => [[]]
  | c :: s => (c :: s) :: (if c == '/' then [] else nonSlashTails s)

/-- Anchored matching of a token list against a character list: `lit c` matches
exactly `c`, `one` matches one non-`/` character, `anySeg` matches any run of
non-`/` characters, `anyAll` matches any run of characters. -/
def tokMatch : List GlobTok → List Char → Bool
  | [], s => s.isEmpty
  | GlobTok.lit c :: ps, s =>
      match s with
      | [] => false
      | c2 :: s2 => c == c2 && tokMatch ps s2
  | GlobTok.one :: ps, s =>
      match s with
      | [] => false
      | c2 :: s2 => !(c2 == '/') && tokMatch ps s2
  | GlobTok.anySeg :: ps, s => (nonSlashTails s).any fun t => tokMatch ps t
  | GlobTok.anyAll :: ps, s => s.tails.any fun t => tokMatch ps t

/-- Modelled from the spec: a request matches a registered route pattern when
the pattern's glob matches the browser's outgoing request URL (spec section 6);
the matcher itself lives in the Playwright layer, not under `src/`. -/
def matchRoute (pattern url : String) : Bool :=
  tokMatch (parseGlob pattern.data) url.data

/-- A canned response payload as passed to `route.fulfill` in the scripts:
status code, content type and body. -/
structure Fixture where
  status : Nat
  contentType : String
  body : String
deriving DecidableEq

/-- An intercepted network request, the read-only view a responder sees. -/
structure Request where
  url : String
  method : String
deriving DecidableEq

/-- A registered interception rule: a glob pattern together with the responder
function that produces the fulfilled response. -/
structure RouteReg where
  pattern : String
  responder : Request → Fixture

/-- Modelled from the spec: route dispatch (spec section 4.2) — of all
registered rules whose pattern matches the request URL, the most recently
registered one wins; the rule list is kept in registration order and later
registrations are consulted first, mirroring the reverse-registration-order
handler dispatch of the Playwright layer (not under `src/`). -/
def lookupRoute : List RouteReg → String → Option RouteReg
  | [], _ => none
  | r :: rs, url =>
    match lookupRoute rs url with
    | some rr => some rr
    | none => if matchRoute r.pattern url then some r else none

/-- Modelled from the spec: fulfillment (spec sections 4.2 and 8) — a matched
request is answered by the matched rule's responder output, verbatim; the
delivery itself (`route.fulfill`) is in the Playwright layer, not under
`src/`. -/
def fulfill (rules : List RouteReg) (req : Request) : Option Fixture :=
  match lookupRoute rules req.url with
  | none => none
  | some rr => some (rr.responder req)

/-- Fixture for `**/api/user` in `frontend_verification_script.py`. -/
def fvUserFix : Fixture :=
  ⟨200, "application/json",
   "\x7b\"id\": \"test-user\", \"email\": \"test@example.com\", \"is_admin\": true, \"created_at\": \"2023-01-01\"\x7d"⟩

/-- Fixture for `**/api/youtube/channels` in `frontend_verification_script.py`. -/
def fvChannelsFix : Fixture :=
  ⟨200, "application/json",
   "\x7b\"channels\": [\x7b\"youtube_id\": \"UC123\", \"title\": \"Test Channel\"\x7d]\x7d"⟩

/-- Fixture for `**/api/youtube/videos*` in `frontend_verification_script.py`
(the triple-quoted body, whitespace included). -/
def fvVideosFix : Fixture :=
  ⟨200, "application/json",
   "\n            \x7b\n                \"videos\": [\n                    \x7b\n                        \"youtube_id\": \"vid1\",\n                        \"title\": \"Video 1\",\n                        \"description\": \"Desc 1\",\n                        \"published_at\": \"2023-01-01T00:00:00Z\",\n                        \"channel_id\": \"UC123\",\n                        \"channel_title\": \"Test Channel\",\n                        \"thumbnail_url\": \"https://example.com/thumb.jpg\",\n                        \"duration\": \"10:00\",\n                        \"statistics\": \"\x7b\\\"viewCount\\\": \\\"1000\\\"\x7d\",\n                        \"raw_json\": \"\x7b\x7d\",\n                        \"created_at\": \"2023-01-01T00:00:00Z\",\n                        \"updated_at\": \"2023-01-01T00:00:00Z\"\n                    \x7d\n                ],\n                \"limit\": 10,\n                \"offset\": 0,\n                \"total\": 105\n            \x7d\n            "⟩

/-- The constant responder registered for `**/api/youtube/videos*` in
`frontend_verification_script.py` — the source lambda ignores its `route`
argument. -/
def fvVideosResp : Request → Fixture := fun _ => fvVideosFix

/-- Rule registered first in `frontend_verification_script.py`. -/
def fvUserRule : RouteReg := ⟨"**/api/user", fun _ => fvUserFix⟩

/-- Rule registered second in `frontend_verification_script.py`. -/
def fvChannelsRule : RouteReg := ⟨"**/api/youtube/channels", fun _ => fvChannelsFix⟩

/-- Rule registered third in `frontend_verification_script.py`. -/
def fvVideosRule : RouteReg := ⟨"**/api/youtube/videos*", fvVideosResp⟩

/-- Route table of `frontend_verification_script.py` `run`, in registration
order. -/
def fvRoutes : List RouteReg := [fvUserRule, fvChannelsRule, fvVideosRule]

/-- Fixture for `**/api/session` in `verify_user_type_dropdown.py`. -/
def utdSessionFix : Fixture :=
  ⟨200, "application/json",
   "\x7b\"id\":\"test-session\",\"user_id\":1,\"created_at\":\"\",\"expires_at\":\"\",\"last_used_at\":\"\",\"user\":\x7b\"id\":1,\"email\":\"admin@example.com\",\"name\":\"Admin User\",\"profile_picture\":null,\"user_type\":\"ADMIN\",\"is_admin\":true,\"created_at\":\"\",\"updated_at\":\"\",\"last_login_at\":null\x7d\x7d"⟩

/-- Fixture for `**/api/users` in `verify_user_type_dropdown.py`. -/
def utdUsersFix : Fixture :=
  ⟨200, "application/json",
   "[\x7b\"id\":1,\"email\":\"admin@example.com\",\"name\":\"Admin User\",\"profile_picture\":null,\"user_type\":\"ADMIN\",\"is_admin\":true,\"created_at\":\"\",\"updated_at\":\"\",\"last_login_at\":null\x7d, \x7b\"id\":2,\"email\":\"guest@example.com\",\"name\":\"Guest User\",\"profile_picture\":null,\"user_type\":\"GUEST\",\"is_admin\":false,\"created_at\":\"\",\"updated_at\":\"\",\"last_login_at\":null\x7d]"⟩

/-- Fixture for `**/build-metadata.json` in `verify_user_type_dropdown.py`. -/
def utdBuildFix : Fixture :=
  ⟨200, "application/json", "\x7b\"timestamp\": \"2024-05-22\"\x7d"⟩

/-- Route table of `verify_user_type_dropdown.py`, in registration order. -/
def utdRoutes : List RouteReg :=
  [⟨"**/api/session", fun _ => utdSessionFix⟩,
   ⟨"**/api/users", fun _ => utdUsersFix⟩,
   ⟨"**/build-metadata.json", fun _ => utdBuildFix⟩]

/-- Fixture for `**/api/session` in `verify_users_tab.py`. -/
def utSessionFix : Fixture :=
  ⟨200, "application/json",
   "\x7b\"id\":\"test-session\",\"user_id\":1,\"user\":\x7b\"id\":1,\"email\":\"admin@example.com\",\"name\":\"Admin User\",\"profile_picture\":null,\"is_admin\":true,\"created_at\":\"2023-01-01T00:00:00Z\",\"updated_at\":\"2023-01-01T00:00:00Z\",\"last_login_at\":\"2023-01-01T00:00:00Z\"\x7d\x7d"⟩

/-- Fixture for `**/api/users` in `verify_users_tab.py`. -/
def utUsersFix : Fixture :=
  ⟨200, "application/json",
   "[\x7b\"id\":1,\"email\":\"admin@example.com\",\"name\":\"Admin User\",\"profile_picture\":null,\"is_admin\":true,\"created_at\":\"2023-01-01T00:00:00Z\",\"updated_at\":\"2023-01-01T00:00:00Z\",\"last_login_at\":\"2023-01-01T00:00:00Z\"\x7d,\x7b\"id\":2,\"email\":\"user@example.com\",\"name\":\"Regular User\",\"profile_picture\":null,\"is_admin\":false,\"created_at\":\"2023-01-02T00:00:00Z\",\"updated_at\":\"2023-01-02T00:00:00Z\",\"last_login_at\":null\x7d]"⟩

/-- Route table of `verify_users_tab.py`, in registration order. -/
def utRoutes : List RouteReg :=
  [⟨"**/api/session", fun _ => utSessionFix⟩,
   ⟨"**/api/users", fun _ => utUsersFix⟩]

/-- Fixture for `**/api/session` in `verify_pagination.py`. -/
def pgSessionFix : Fixture :=
  ⟨200, "application/json",
   "\x7b\"user\": \x7b\"id\": \"1\", \"username\": \"admin\", \"is_admin\": true, \"avatar_url\": \"\", \"created_at\": \"\", \"updated_at\": \"\"\x7d, \"id\": \"session_1\"\x7d"⟩

/-- Fixture for `**/api/youtube/channels` in `verify_pagination.py`. -/
def pgChannelsFix : Fixture :=
  ⟨200, "application/json", "\x7b\"channels\": []\x7d"⟩

/-- Fixture for `**/api/youtube/videos*` in `verify_pagination.py`. -/
def pgVideosFix : Fixture :=
  ⟨200, "application/json",
   "\x7b\"videos\": [\x7b\"youtube_id\": \"1\", \"title\": \"Test\", \"published_at\": \"2023-01-01\", \"view_count\": 0, \"like_count\": 0, \"comment_count\": 0\x7d], \"total\": 0\x7d"⟩

/-- The constant responder registered for `**/api/youtube/videos*` in
`verify_pagination.py` — the source lambda ignores its `route` argument. -/
def pgVideosResp : Request → Fixture := fun _ => pgVideosFix

/-- Rule registered first in `verify_pagination.py`. -/
def pgSessionRule : RouteReg := ⟨"**/api/session", fun _ => pgSessionFix⟩

/-- Rule registered second in `verify_pagination.py`. -/
def pgChannelsRule : RouteReg := ⟨"**/api/youtube/channels", fun _ => pgChannelsFix⟩

/-- Rule registered third in `verify_pagination.py`. -/
def pgVideosRule : RouteReg := ⟨"**/api/youtube/videos*", pgVideosResp⟩

/-- Route table of `verify_pagination.py`, in registration order. -/
def pgRoutes : List RouteReg := [pgSessionRule, pgChannelsRule, pgVideosRule]

/-- Demonstration fixtures and rules with overlapping patterns, used to
instantiate the last-write-wins theorem (the four scripts register no two
overlapping patterns, so an overlap is exhibited here). -/
def demoFixA : Fixture := ⟨200, "application/json", "[]"⟩

/-- Second demonstration fixture, distinct from the first. -/
def demoFixB : Fixture := ⟨404, "text/plain", "not found"⟩

/-- Demonstration rule registered first. -/
def demoRuleA : RouteReg := ⟨"**/api/users", fun _ => demoFixA⟩

/-- Demonstration rule registered second; its pattern also matches
`/api/users` requests. -/
def demoRuleB : RouteReg := ⟨"**/api/*", fun _ => demoFixB⟩

/-- Demonstration route table with two rules matching the same request. -/
def demoRoutes : List RouteReg := [demoRuleA, demoRuleB]

/-- Kind of a script step, as performed by the source scripts. -/
inductive StepKind where
  | register
  | navigate
  | waitFor
  | assertVis
  | click
  | selectOpt
  | attrCheck
  | shot
  | closeStep
deriving DecidableEq, BEq

/-- What happens when a step fails: the scripts either let the exception
abort the straight-line flow (`aborts`), or catch and ignore it in place
(`swallows`, the `try/except: pass` around the Loading wait in
`verify_users_tab.py`). -/
inductive FailMode where
  | aborts
  | swallows
deriving DecidableEq

/-- One step of a script, embedded from the source: its kind, a description,
its failure mode, and the screenshot path an enclosing exception handler
would capture were this step to fail (none when no handler covers it). -/
structure SStep where
  kind : StepKind
  descr : String
  mode : FailMode
  onFailEvidence : Option String
deriving DecidableEq

/-- Default step used with `List.getD`. -/
def stepD : SStep := ⟨StepKind.click, "", FailMode.aborts, none⟩

/-- A whole script: its ordered steps and whether `browser.close()` sits in a
`finally` block (true only for `verify_user_type_dropdown.py`'s main). -/
structure Script where
  steps : List SStep
  closeInFinally : Bool

/-- Observable outcome of running a script: the 1-based indices of the steps
that were started, the index of the aborting step if any, the failure
screenshot captured by a handler, and whether `browser.close()` ran. -/
structure ExecOut where
  executed : List Nat
  failedStepIndex : Option Nat
  evidencePath : Option String
  closeCalled : Bool
deriving DecidableEq

/-- Modelled from the spec: sequential scenario execution (spec section 4.5) —
steps run in declaration order; a failing step either aborts the run
immediately (recording its index and any handler-captured evidence) or, in
swallow mode, is ignored and execution continues; the Python-level exception
mechanics are not themselves under `src/`. -/
def execFrom (fails : Nat → Bool) : Nat → List SStep → ExecOut
  | _, [] => ⟨[], none, none, false⟩
  | k, s :: rest =>
    if fails k then
      match s.mode with
      | FailMode.swallows =>
        let o := execFrom fails (k + 1) rest
        ⟨k :: o.executed, o.failedStepIndex, o.evidencePath, o.closeCalled⟩
      | FailMode.aborts => ⟨[k], some k, s.onFailEvidence, false⟩
    else
      let o := execFrom fails (k + 1) rest
      ⟨k :: o.executed, o.failedStepIndex, o.evidencePath,
       o.closeCalled || (s.kind == StepKind.closeStep)⟩

/-- Run a script under a failure oracle `fails` (step k fails iff `fails k`);
a `finally` block makes `close()` run on every exit path. -/
def runScript (sc : Script) (fails : Nat → Bool) : ExecOut :=
  let o := execFrom fails 1 sc.steps
  ⟨o.executed, o.failedStepIndex, o.evidencePath, o.closeCalled || sc.closeInFinally⟩

/-- Steps of `frontend_verification_script.py` `run`, in source order: three
route registrations, navigation, assertions and clicks, a screenshot, and a
final `browser.close()`; no step is covered by an exception handler. -/
def fvSteps : List SStep :=
  [⟨StepKind.register, "page.route **/api/user", FailMode.aborts, none⟩,
   ⟨StepKind.register, "page.route **/api/youtube/channels", FailMode.aborts, none⟩,
   ⟨StepKind.register, "page.route **/api/youtube/videos*", FailMode.aborts, none⟩,
   ⟨StepKind.navigate, "page.goto http://localhost:4173", FailMode.aborts, none⟩,
   ⟨StepKind.assertVis, "expect text Storage Auth Service visible", FailMode.aborts, none⟩,
   ⟨StepKind.click, "click button YouTube", FailMode.aborts, none⟩,
   ⟨StepKind.click, "click text Search Database", FailMode.aborts, none⟩,
   ⟨StepKind.click, "click button Search exact", FailMode.aborts, none⟩,
   ⟨StepKind.assertVis, "expect text Total Results: visible", FailMode.aborts, none⟩,
   ⟨StepKind.assertVis, "expect text 105 visible", FailMode.aborts, none⟩,
   ⟨StepKind.assertVis, "expect button First visible", FailMode.aborts, none⟩,
   ⟨StepKind.assertVis, "expect button Previous visible", FailMode.aborts, none⟩,
   ⟨StepKind.assertVis, "expect button Next visible", FailMode.aborts, none⟩,
   ⟨StepKind.assertVis, "expect button Last visible", FailMode.aborts, none⟩,
   ⟨StepKind.attrCheck, "expect second select to have value 10", FailMode.aborts, none⟩,
   ⟨StepKind.shot, "screenshot frontend-verification/youtube_search_pagination.png",
    FailMode.aborts, none⟩,
   ⟨StepKind.closeStep, "browser.close", FailMode.aborts, none⟩]

/-- Script record for `frontend_verification_script.py` `run`. -/
def fvScript : Script := ⟨fvSteps, false⟩

/-- Steps of `verify_user_type_dropdown.py` (function body as invoked by its
main), in source order; every step is inside main's `try`, whose handler
screenshots `frontend-verification/error.png`, and `browser.close()` is in a
`finally`. -/
def utdSteps : List SStep :=
  [⟨StepKind.register, "page.route **/api/session", FailMode.aborts,
    some "frontend-verification/error.png"⟩,
   ⟨StepKind.register, "page.route **/api/users", FailMode.aborts,
    some "frontend-verification/error.png"⟩,
   ⟨StepKind.register, "page.route **/build-metadata.json", FailMode.aborts,
    some "frontend-verification/error.png"⟩,
   ⟨StepKind.navigate, "page.goto http://localhost:3000/", FailMode.aborts,
    some "frontend-verification/error.png"⟩,
   ⟨StepKind.click, "click button Users", FailMode.aborts,
    some "frontend-verification/error.png"⟩,
   ⟨StepKind.assertVis, "expect cell Guest exact visible", FailMode.aborts,
    some "frontend-verification/error.png"⟩,
   ⟨StepKind.click, "click button Add User", FailMode.aborts,
    some "frontend-verification/error.png"⟩,
   ⟨StepKind.assertVis, "expect text User Type visible", FailMode.aborts,
    some "frontend-verification/error.png"⟩,
   ⟨StepKind.selectOpt, "select_option GUEST", FailMode.aborts,
    some "frontend-verification/error.png"⟩,
   ⟨StepKind.selectOpt, "select_option STANDARD", FailMode.aborts,
    some "frontend-verification/error.png"⟩,
   ⟨StepKind.selectOpt, "select_option ADMIN", FailMode.aborts,
    some "frontend-verification/error.png"⟩,
   ⟨StepKind.shot, "screenshot frontend-verification/user_type_verification.png",
    FailMode.aborts, some "frontend-verification/error.png"⟩]

/-- Script record for `verify_user_type_dropdown.py` main: `close()` is in a
`finally` block. -/
def utdScript : Script := ⟨utdSteps, true⟩

/-- Steps of `verify_users_tab.py`, in source order: the wait for
`text=Loading...` to detach sits in a `try/except: pass`, so its timeout is
swallowed; no other handler exists, and `browser.close()` is the last step. -/
def utSteps : List SStep :=
  [⟨StepKind.register, "page.route **/api/session", FailMode.aborts, none⟩,
   ⟨StepKind.register, "page.route **/api/users", FailMode.aborts, none⟩,
   ⟨StepKind.navigate, "page.goto http://localhost:3000/", FailMode.aborts, none⟩,
   ⟨StepKind.waitFor, "wait_for_selector text=Loading... detached timeout 5000",
    FailMode.swallows, none⟩,
   ⟨StepKind.click, "click text=Users", FailMode.aborts, none⟩,
   ⟨StepKind.waitFor, "wait_for_selector table.data-table", FailMode.aborts, none⟩,
   ⟨StepKind.shot, "screenshot frontend-verification/users_tab.png", FailMode.aborts, none⟩,
   ⟨StepKind.closeStep, "browser.close", FailMode.aborts, none⟩]

/-- Script record for `verify_users_tab.py`. -/
def utScript : Script := ⟨utSteps, false⟩

/-- Steps of `verify_pagination.py`, in source order: the three registrations
sit outside the `try`, the remaining steps are covered by the handler that
screenshots `verification/error.png`; the `max` attribute check, when it
fails, screenshots `verification/failure.png` itself before exiting; no
`browser.close()` anywhere. -/
def pgSteps : List SStep :=
  [⟨StepKind.register, "page.route **/api/session", FailMode.aborts, none⟩,
   ⟨StepKind.register, "page.route **/api/youtube/channels", FailMode.aborts, none⟩,
   ⟨StepKind.register, "page.route **/api/youtube/videos*", FailMode.aborts, none⟩,
   ⟨StepKind.navigate, "page.goto http://localhost:5173/", FailMode.aborts,
    some "verification/error.png"⟩,
   ⟨StepKind.assertVis, "expect button Logout visible", FailMode.aborts,
    some "verification/error.png"⟩,
   ⟨StepKind.click, "click button YouTube", FailMode.aborts,
    some "verification/error.png"⟩,
   ⟨StepKind.click, "click button Search Database", FailMode.aborts,
    some "verification/error.png"⟩,
   ⟨StepKind.assertVis, "expect button Search exact visible", FailMode.aborts,
    some "verification/error.png"⟩,
   ⟨StepKind.click, "click button Search exact", FailMode.aborts,
    some "verification/error.png"⟩,
   ⟨StepKind.assertVis, "expect input type=number visible", FailMode.aborts,
    some "verification/error.png"⟩,
   ⟨StepKind.attrCheck, "check pagination input max attribute equals 1", FailMode.aborts,
    some "verification/failure.png"⟩,
   ⟨StepKind.shot, "screenshot verification/youtube_pagination.png", FailMode.aborts,
    some "verification/error.png"⟩]

/-- Script record for `verify_pagination.py`. -/
def pgScript : Script := ⟨pgSteps, false⟩

/-- Whether every route registration of a script precedes its first
navigation step. -/
def regsBeforeNav (sc : Script) : Bool :=
  let n := sc.steps.findIdx (fun s => s.kind == StepKind.navigate)
  (List.range sc.steps.length).all
    (fun i => ((sc.steps.getD i stepD).kind != StepKind.register) || decide (i < n))

/-- Number of route registration steps of a script. -/
def registerCount (sc : Script) : Nat :=
  (sc.steps.filter (fun s => s.kind == StepKind.register)).length

/-- Number of navigation steps of a script. -/
def navCount (sc : Script) : Nat :=
  (sc.steps.filter (fun s => s.kind == StepKind.navigate)).length

/-- Modelled from the spec: the polling instants of the Assertion Engine
(spec section 4.4) — the condition is re-checked at 0, interval,
2 * interval, ..., with the last instant at or before timeoutMs; the polling
loop itself lives in the Playwright layer, not under `src/`. -/
def pollTimes (timeoutMs interval : Nat) : List Nat :=
  (List.range (timeoutMs / interval + 1)).map (fun k => k * interval)

/-- Modelled from the spec: `awaitVisible`/`awaitText` — returns the first
polling instant at which the condition holds, or none on timeout. -/
def awaitCond (cond : Nat → Bool) (timeoutMs interval : Nat) : Option Nat :=
  (pollTimes timeoutMs interval).find? cond

/-- Time at which the polling call returns: the successful instant, or one
interval after the last poll on timeout. -/
def blockTime (cond : Nat → Bool) (timeoutMs interval : Nat) : Nat :=
  match awaitCond cond timeoutMs interval with
  | some t => t
  | none => timeoutMs / interval * interval + interval

/-- Literal glob tokens of a character list. -/
def litToks (l : List Char) : List GlobTok := l.map GlobTok.lit

/-- A route pattern as the spec's matching rule describes it: a path glob
plus either a query wildcard or no query component at all. -/
structure SpecPattern where
  pathGlob : String
  queryWildcard : Bool
deriving DecidableEq

/-- A request URL split into its path and optional query string. -/
structure SpecRequest where
  path : String
  query : Option String
deriving DecidableEq

/-- The full URL string of a split request. -/
def specRequestUrl (r : SpecRequest) : String :=
  match r.query with
  | none => r.path
  | some q => r.path ++ "?" ++ q

/-- Follows the spec's words (claim C9, spec section 4.2): a request matches
when the path-glob matches the request path; since a pattern either carries
a query wildcard or omits the query component, and the claim accepts any
query string in both cases, the query never constrains the match. -/
def specClaimMatches (p : SpecPattern) (r : SpecRequest) : Bool :=
  tokMatch (parseGlob p.pathGlob.data) r.path.data

example : matchRoute "**/api/user" "http://localhost:4173/api/user" = true := by decide
example : matchRoute "**/api/user" "http://localhost:4173/api/users" = false := by decide
example : matchRoute "**/api/youtube/videos*"
    "http://localhost:4173/api/youtube/videos?limit=10&offset=0" = true := by decide
example : matchRoute "**/api/youtube/videos*"
    "http://localhost:5173/api/youtube/videos" = true := by decide
example : matchRoute "**/api/users" "http://localhost:3000/api/users?page=2" = false := by decide

example : fulfill fvRoutes ⟨"http://localhost:4173/api/user", "GET"⟩ = some fvUserFix := by decide
example : fulfill pgRoutes ⟨"http://localhost:5173/api/youtube/videos?limit=10", "GET"⟩ =
    some pgVideosFix := by decide
example : fulfill utRoutes ⟨"http://localhost:3000/api/unknown", "GET"⟩ = none := by decide

lemma lookupRoute_sound (rules : List RouteReg) (url : String) (rr : RouteReg)
    (h : lookupRoute rules url = some rr) : rr ∈ rules ∧ matchRoute rr.pattern url = true := by
  induction rules with
  | nil => simp [lookupRoute] at h
  | cons r rs ih =>
    cases hl : lookupRoute rs url with
    | some x =>
      simp only [lookupRoute, hl] at h
      injection h with h2
      subst h2
      obtain ⟨hmem, hmt⟩ := ih hl
      exact ⟨List.mem_cons_of_mem r hmem, hmt⟩
    | none =>
      simp only [lookupRoute, hl] at h
      by_cases hm : matchRoute r.pattern url = true
      · rw [if_pos hm] at h
        injection h with h2
        subst h2
        exact ⟨List.mem_cons_self r rs, hm⟩
      · rw [if_neg hm] at h
        exact absurd h (by simp)

lemma lookupRoute_none (rules : List RouteReg) (url : String)
    (h : ∀ r ∈ rules, matchRoute r.pattern url = false) : lookupRoute rules url = none := by
  induction rules with
  | nil => rfl
  | cons r rs ih =>
    have h1 : matchRoute r.pattern url = false := h r (List.mem_cons_self r rs)
    have h2 := ih (fun r' hr' => h r' (List.mem_cons_of_mem r hr'))
    simp [lookupRoute, h2, h1]

lemma lookupRoute_last (xs ys : List RouteReg) (rr : RouteReg) (url : String)
    (hm : matchRoute rr.pattern url = true)
    (hys : ∀ r ∈ ys, matchRoute r.pattern url = false) :
    lookupRoute (xs ++ rr :: ys) url = some rr := by
  induction xs with
  | nil => simp [lookupRoute, lookupRoute_none ys url hys, hm]
  | cons x xs ih => simp [lookupRoute, ih]

lemma fulfill_of_lookup (rules : List RouteReg) (req : Request) (rr : RouteReg)
    (h : lookupRoute rules req.url = some rr) : fulfill rules req = some (rr.responder req) := by
  unfold fulfill
  rw [h]

/-- C1: if a registered pattern matches an intercepted request, the response
delivered is exactly some registered rule's responder output for that request —
status, content type and body are passed through with no transformation
between registration and fulfillment. -/
theorem fulfill_returns_registered_fixture (rules : List RouteReg) (req : Request) (f : Fixture)
    (h : fulfill rules req = some f) :
    ∃ rr, rr ∈ rules ∧ matchRoute rr.pattern req.url = true ∧ f = rr.responder req := by
  cases hl : lookupRoute rules req.url with
  | none =>
    simp only [fulfill, hl] at h
    exact absurd h (by simp)
  | some rr =>
    simp only [fulfill, hl] at h
    injection h with h2
    obtain ⟨hmem, hmt⟩ := lookupRoute_sound rules req.url rr hl
    exact ⟨rr, hmem, hmt, h2.symm⟩

/-- Witness for C1: the `/api/user` request of `frontend_verification_script.py`
is fulfilled, untransformed, with the registered user fixture. -/
theorem fulfill_returns_registered_fixture_witness :
    ∃ rr, rr ∈ fvRoutes ∧
      matchRoute rr.pattern (Request.mk "http://localhost:4173/api/user" "GET").url = true ∧
      fvUserFix = rr.responder ⟨"http://localhost:4173/api/user", "GET"⟩ :=
  fulfill_returns_registered_fixture fvRoutes ⟨"http://localhost:4173/api/user", "GET"⟩
    fvUserFix (by decide)

/-- C2: when two registered rules both match a request (an earlier `r0` and a
later `rr` after which no registered rule matches), fulfillment returns the
response of the most recently registered matching rule `rr` — last-write-wins
precedence over registration order. -/
theorem last_registered_wins (rules xs ys : List RouteReg) (rr r0 : RouteReg) (req : Request)
    (hsplit : rules = xs ++ rr :: ys)
    (_h0 : r0 ∈ xs) (_hm0 : matchRoute r0.pattern req.url = true)
    (hm : matchRoute rr.pattern req.url = true)
    (hys : ∀ r ∈ ys, matchRoute r.pattern req.url = false) :
    fulfill rules req = some (rr.responder req) := by
  subst hsplit
  exact fulfill_of_lookup _ req rr (lookupRoute_last xs ys rr req.url hm hys)

/-- Witness for C2: both demonstration rules match the request and the most
recently registered one supplies the response. -/
theorem last_registered_wins_witness :
    fulfill demoRoutes ⟨"http://localhost:3000/api/users", "GET"⟩ = some demoFixB :=
  last_registered_wins demoRoutes [demoRuleA] [] demoRuleB demoRuleA
    ⟨"http://localhost:3000/api/users", "GET"⟩ rfl (List.mem_cons_self _ _) (by decide)
    (by decide) (by intro r hr; exact absurd hr (List.not_mem_nil r))

/-- C10: the responders registered for `**/api/youtube/videos*` (in
`frontend_verification_script.py` and in `verify_pagination.py`) are constant
functions — for any two requests matching that pattern, whatever their query
parameters or method, the fulfilled status, content type and body are
identical, and equal to the respective embedded fixture. -/
theorem videos_responder_constant (r1 r2 : Request)
    (h1 : matchRoute "**/api/youtube/videos*" r1.url = true)
    (h2 : matchRoute "**/api/youtube/videos*" r2.url = true) :
    fulfill fvRoutes r1 = some fvVideosFix ∧ fulfill fvRoutes r2 = some fvVideosFix ∧
    fulfill pgRoutes r1 = some pgVideosFix ∧ fulfill pgRoutes r2 = some pgVideosFix ∧
    fvVideosResp r1 = fvVideosResp r2 ∧ pgVideosResp r1 = pgVideosResp r2 := by
  have hnil : ∀ r ∈ ([] : List RouteReg), matchRoute r.pattern r1.url = false := by
    intro r hr
    exact absurd hr (List.not_mem_nil r)
  have hnil2 : ∀ r ∈ ([] : List RouteReg), matchRoute r.pattern r2.url = false := by
    intro r hr
    exact absurd hr (List.not_mem_nil r)
  have e1 : lookupRoute fvRoutes r1.url = some fvVideosRule :=
    lookupRoute_last [fvUserRule, fvChannelsRule] [] fvVideosRule r1.url h1 hnil
  have e2 : lookupRoute fvRoutes r2.url = some fvVideosRule :=
    lookupRoute_last [fvUserRule, fvChannelsRule] [] fvVideosRule r2.url h2 hnil2
  have e3 : lookupRoute pgRoutes r1.url = some pgVideosRule :=
    lookupRoute_last [pgSessionRule, pgChannelsRule] [] pgVideosRule r1.url h1 hnil
  have e4 : lookupRoute pgRoutes r2.url = some pgVideosRule :=
    lookupRoute_last [pgSessionRule, pgChannelsRule] [] pgVideosRule r2.url h2 hnil2
  exact ⟨fulfill_of_lookup _ r1 _ e1, fulfill_of_lookup _ r2 _ e2,
         fulfill_of_lookup _ r1 _ e3, fulfill_of_lookup _ r2 _ e4, rfl, rfl⟩

/-- Witness for C10: two videos requests differing in query string and method
receive identical responses. -/
theorem videos_responder_constant_witness :
    fulfill fvRoutes ⟨"http://localhost:4173/api/youtube/videos?limit=10&offset=0", "GET"⟩ =
      some fvVideosFix ∧
    fulfill fvRoutes ⟨"http://localhost:4173/api/youtube/videos?page=3", "POST"⟩ =
      some fvVideosFix ∧
    fulfill pgRoutes ⟨"http://localhost:4173/api/youtube/videos?limit=10&offset=0", "GET"⟩ =
      some pgVideosFix ∧
    fulfill pgRoutes ⟨"http://localhost:4173/api/youtube/videos?page=3", "POST"⟩ =
      some pgVideosFix ∧
    fvVideosResp ⟨"http://localhost:4173/api/youtube/videos?limit=10&offset=0", "GET"⟩ =
      fvVideosResp ⟨"http://localhost:4173/api/youtube/videos?page=3", "POST"⟩ ∧
    pgVideosResp ⟨"http://localhost:4173/api/youtube/videos?limit=10&offset=0", "GET"⟩ =
      pgVideosResp ⟨"http://localhost:4173/api/youtube/videos?page=3", "POST"⟩ :=
  videos_responder_constant
    ⟨"http://localhost:4173/api/youtube/videos?limit=10&offset=0", "GET"⟩
    ⟨"http://localhost:4173/api/youtube/videos?page=3", "POST"⟩ (by decide) (by decide)

example : (runScript fvScript (fun _ => false)).executed =
    [1, 2, 3, 4, 5, 6, 7, 8, 9, 10, 11, 12, 13, 14, 15, 16, 17] := by decide
example : (runScript utScript (fun j => j == 4)).failedStepIndex = none := by decide
example : (runScript pgScript (fun j => j == 11)).evidencePath =
    some "verification/failure.png" := by decide

lemma execFrom_first_fail (fails : Nat → Bool) :
    ∀ (steps : List SStep) (start k : Nat),
      (∀ s ∈ steps, s.mode = FailMode.aborts) →
      start ≤ k → k < start + steps.length →
      (∀ j, start ≤ j → j < k → fails j = false) → fails k = true →
      (execFrom fails start steps).executed = List.range' start (k + 1 - start) ∧
      (execFrom fails start steps).failedStepIndex = some k := by
  intro steps
  induction steps with
  | nil =>
    intro start k _ h1 h2 _ _
    simp only [List.length_nil, Nat.add_zero] at h2
    omega
  | cons s rest ih =>
    intro start k hall h1 h2 hbef hk
    by_cases hsk : start = k
    · subst hsk
      have hm : s.mode = FailMode.aborts := hall s (List.mem_cons_self s rest)
      have hone : start + 1 - start = 1 := by omega
      simp [execFrom, hk, hm, hone, List.range'_one]
    · have hlt : start < k := Nat.lt_of_le_of_ne h1 hsk
      have hf : fails start = false := hbef start le_rfl hlt
      obtain ⟨ihe, ihf⟩ := ih (start + 1) k
        (fun s' hs' => hall s' (List.mem_cons_of_mem s hs'))
        (by omega) (by simp only [List.length_cons] at h2; omega)
        (fun j hj1 hj2 => hbef j (by omega) hj2) hk
      have hsplit : k + 1 - start = (k + 1 - (start + 1)) + 1 := by omega
      have hred : execFrom fails start (s :: rest) =
          ⟨start :: (execFrom fails (start + 1) rest).executed,
           (execFrom fails (start + 1) rest).failedStepIndex,
           (execFrom fails (start + 1) rest).evidencePath,
           (execFrom fails (start + 1) rest).closeCalled || (s.kind == StepKind.closeStep)⟩ := by
        simp [execFrom, hf]
      rw [hred]
      constructor
      · show start :: (execFrom fails (start + 1) rest).executed =
          List.range' start (k + 1 - start)
        rw [ihe, hsplit, List.range'_succ]
      · exact ihf

/-- C3: in the sequential scenario execution of the spec's runner (every step
failure aborts), if step k (1-indexed) is the first to fail then exactly
steps 1..k are executed, none of the later steps run, and the result's
failedStepIndex equals k. -/
theorem scenario_short_circuits_at_first_failure (sc : Script) (fails : Nat → Bool) (k : Nat)
    (hall : ∀ s ∈ sc.steps, s.mode = FailMode.aborts)
    (h1 : 1 ≤ k) (h2 : k ≤ sc.steps.length)
    (hbef : ∀ j, 1 ≤ j → j < k → fails j = false) (hk : fails k = true) :
    (runScript sc fails).executed = List.range' 1 k ∧
    (runScript sc fails).failedStepIndex = some k ∧
    ∀ j, k < j → j ∉ (runScript sc fails).executed := by
  obtain ⟨he, hf⟩ := execFrom_first_fail fails sc.steps 1 k hall h1 (by omega) hbef hk
  have hk1 : k + 1 - 1 = k := by omega
  rw [hk1] at he
  have he' : (runScript sc fails).executed = List.range' 1 k := he
  have hf' : (runScript sc fails).failedStepIndex = some k := hf
  refine ⟨he', hf', ?_⟩
  intro j hj hmem
  rw [he'] at hmem
  rw [List.mem_range'_1] at hmem
  omega

/-- Witness for C3: `verify_pagination.py` failing first at step 5 (the Logout
visibility assertion) executes exactly steps 1..5 and reports index 5. -/
theorem scenario_short_circuits_at_first_failure_witness :
    (runScript pgScript (fun j => decide (j = 5))).executed = List.range' 1 5 ∧
    (runScript pgScript (fun j => decide (j = 5))).failedStepIndex = some 5 ∧
    ∀ j, 5 < j → j ∉ (runScript pgScript (fun j => decide (j = 5))).executed :=
  scenario_short_circuits_at_first_failure pgScript (fun j => decide (j = 5)) 5
    (by decide) (by decide) (by decide)
    (by intro j _ hj2; simp only [decide_eq_false_iff_not]; omega) (by decide)

lemma execFrom_evidence (fails : Nat → Bool) :
    ∀ (steps : List SStep) (start k : Nat),
      (execFrom fails start steps).failedStepIndex = some k →
      start ≤ k ∧ k < start + steps.length ∧
      (execFrom fails start steps).evidencePath =
        (steps.getD (k - start) stepD).onFailEvidence := by
  intro steps
  induction steps with
  | nil =>
    intro start k h
    simp [execFrom] at h
  | cons s rest ih =>
    intro start k h
    cases hf : fails start with
    | true =>
      cases hm : s.mode with
      | aborts =>
        have hred : execFrom fails start (s :: rest) =
            ⟨[start], some start, s.onFailEvidence, false⟩ := by
          simp [execFrom, hf, hm]
        rw [hred] at h ⊢
        have hks : start = k := by
          simpa using h
        subst hks
        have h0 : start - start = 0 := by omega
        simp [h0]
      | swallows =>
        have hred : execFrom fails start (s :: rest) =
            ⟨start :: (execFrom fails (start + 1) rest).executed,
             (execFrom fails (start + 1) rest).failedStepIndex,
             (execFrom fails (start + 1) rest).evidencePath,
             (execFrom fails (start + 1) rest).closeCalled⟩ := by
          simp [execFrom, hf, hm]
        rw [hred] at h ⊢
        obtain ⟨ha, hb, hc⟩ := ih (start + 1) k h
        have hidx : k - start = (k - (start + 1)) + 1 := by omega
        refine ⟨by omega, by simp only [List.length_cons]; omega, ?_⟩
        rw [hidx]
        simpa using hc
    | false =>
      have hred : execFrom fails start (s :: rest) =
          ⟨start :: (execFrom fails (start + 1) rest).executed,
           (execFrom fails (start + 1) rest).failedStepIndex,
           (execFrom fails (start + 1) rest).evidencePath,
           (execFrom fails (start + 1) rest).closeCalled || (s.kind == StepKind.closeStep)⟩ := by
        simp [execFrom, hf]
      rw [hred] at h ⊢
      obtain ⟨ha, hb, hc⟩ := ih (start + 1) k h
      have hidx : k - start = (k - (start + 1)) + 1 := by omega
      refine ⟨by omega, by simp only [List.length_cons]; omega, ?_⟩
      rw [hidx]
      simpa using hc

lemma runScript_evidence (sc : Script) (fails : Nat → Bool) (k : Nat)
    (h : (runScript sc fails).failedStepIndex = some k) :
    1 ≤ k ∧ k ≤ sc.steps.length ∧
    (runScript sc fails).evidencePath = (sc.steps.getD (k - 1) stepD).onFailEvidence := by
  obtain ⟨ha, hb, hc⟩ := execFrom_evidence fails sc.steps 1 k h
  exact ⟨ha, by omega, hc⟩

/-- Counterexample to C4: a run of `frontend_verification_script.py` `run`
failing at step 5 (the Storage Auth Service visibility assertion) ends in
failure with no evidencePath at all — no screenshot capture is even
attempted, since no exception handler covers any step of that script — yet
the claim permits a null evidencePath only when the capture itself fails. -/
theorem failure_without_evidence :
    (runScript fvScript (fun j => decide (j = 5))).failedStepIndex = some 5 ∧
    (runScript fvScript (fun j => decide (j = 5))).evidencePath = none ∧
    (fvSteps.getD 4 stepD).kind = StepKind.assertVis ∧
    (fvSteps.getD 4 stepD).onFailEvidence = none := by
  decide

/-- C4 (amended): every failure of `verify_user_type_dropdown.py`'s main
carries the error screenshot as evidencePath, and every failure inside
`verify_pagination.py`'s try block (steps 4 onward) carries some screenshot
evidencePath; failures of `frontend_verification_script.py` `run` and of
`verify_users_tab.py` propagate with evidencePath null, no capture being
attempted. -/
theorem failure_evidence_amended (fails : Nat → Bool) (k : Nat) :
    ((runScript utdScript fails).failedStepIndex = some k →
      (runScript utdScript fails).evidencePath = some "frontend-verification/error.png") ∧
    ((runScript pgScript fails).failedStepIndex = some k → 4 ≤ k →
      (runScript pgScript fails).evidencePath.isSome = true) ∧
    ((runScript fvScript fails).failedStepIndex = some k →
      (runScript fvScript fails).evidencePath = none) ∧
    ((runScript utScript fails).failedStepIndex = some k →
      (runScript utScript fails).evidencePath = none) := by
  refine ⟨?_, ?_, ?_, ?_⟩
  · intro h
    obtain ⟨h1, h2, h3⟩ := runScript_evidence utdScript fails k h
    have hlen : k ≤ 12 := by
      simpa [utdScript, utdSteps] using h2
    rw [h3]
    have hall : ∀ i, i < 12 →
        (utdSteps.getD i stepD).onFailEvidence = some "frontend-verification/error.png" := by
      decide
    exact hall (k - 1) (by omega)
  · intro h h4
    obtain ⟨h1, h2, h3⟩ := runScript_evidence pgScript fails k h
    have hlen : k ≤ 12 := by
      simpa [pgScript, pgSteps] using h2
    rw [h3]
    have hall : ∀ i, 3 ≤ i → i < 12 →
        ((pgSteps.getD i stepD).onFailEvidence).isSome = true := by
      decide
    exact hall (k - 1) (by omega) (by omega)
  · intro h
    obtain ⟨h1, h2, h3⟩ := runScript_evidence fvScript fails k h
    have hlen : k ≤ 17 := by
      simpa [fvScript, fvSteps] using h2
    rw [h3]
    have hall : ∀ i, i < 17 → (fvSteps.getD i stepD).onFailEvidence = none := by
      decide
    exact hall (k - 1) (by omega)
  · intro h
    obtain ⟨h1, h2, h3⟩ := runScript_evidence utScript fails k h
    have hlen : k ≤ 8 := by
      simpa [utScript, utSteps] using h2
    rw [h3]
    have hall : ∀ i, i < 8 → (utSteps.getD i stepD).onFailEvidence = none := by
      decide
    exact hall (k - 1) (by omega)

/-- Witness for the amended C4 at concrete failing runs. -/
theorem failure_evidence_amended_witness :
    (runScript utdScript (fun j => decide (j = 6))).evidencePath =
      some "frontend-verification/error.png" ∧
    (runScript fvScript (fun j => decide (j = 5))).evidencePath = none :=
  ⟨(failure_evidence_amended (fun j => decide (j = 6)) 6).1 (by decide),
   (failure_evidence_amended (fun j => decide (j = 5)) 5).2.2.1 (by decide)⟩

/-- Counterexample to C6: the wait for `text=Loading...` to detach in
`verify_users_tab.py` is a suspension point with a 5000 ms timeout wrapped in
`try/except: pass` — when it times out the run does not fail, the timeout is
swallowed, and execution continues to the following click as if the step had
succeeded. -/
theorem swallowed_timeout :
    (utSteps.getD 3 stepD).kind = StepKind.waitFor ∧
    (utSteps.getD 3 stepD).mode = FailMode.swallows ∧
    (runScript utScript (fun j => decide (j = 4))).failedStepIndex = none ∧
    (runScript utScript (fun j => decide (j = 4))).executed = [1, 2, 3, 4, 5, 6, 7, 8] ∧
    (runScript utScript (fun j => decide (j = 4))).closeCalled = true := by
  decide

/-- C6 (amended): exceeding a timeout at any aborting step terminates the
scenario in failure at that step; the sole exception is the
`text=Loading...` detach wait of `verify_users_tab.py`, whose timeout is
caught and ignored so that the run continues. -/
theorem timeout_surfaced_amended :
    (∀ (sc : Script) (fails : Nat → Bool) (k : Nat),
      (∀ s ∈ sc.steps, s.mode = FailMode.aborts) → 1 ≤ k → k ≤ sc.steps.length →
      (∀ j, 1 ≤ j → j < k → fails j = false) → fails k = true →
      (runScript sc fails).failedStepIndex = some k) ∧
    (utSteps.getD 3 stepD).mode = FailMode.swallows ∧
    (runScript utScript (fun j => decide (j = 4))).failedStepIndex = none ∧
    5 ∈ (runScript utScript (fun j => decide (j = 4))).executed := by
  refine ⟨?_, by decide, by decide, by decide⟩
  intro sc fails k hall h1 h2 hbef hk
  exact (execFrom_first_fail fails sc.steps 1 k hall h1 (by omega) hbef hk).2

/-- Witness for the amended C6 at concrete runs. -/
theorem timeout_surfaced_amended_witness :
    (runScript fvScript (fun j => decide (j = 5))).failedStepIndex = some 5 ∧
    (runScript utScript (fun j => decide (j = 4))).failedStepIndex = none :=
  ⟨timeout_surfaced_amended.1 fvScript (fun j => decide (j = 5)) 5 (by decide) (by decide)
     (by decide) (by intro j _ hj2; simp only [decide_eq_false_iff_not]; omega) (by decide),
   timeout_surfaced_amended.2.2.1⟩

/-- Counterexample to C7: `verify_pagination.py` never calls
`browser.close()` — even a fully successful run ends without close — and a
failing run of `frontend_verification_script.py` `run` exits without reaching
its final `browser.close()` step. -/
theorem close_skipped :
    (runScript pgScript (fun _ => false)).failedStepIndex = none ∧
    (runScript pgScript (fun _ => false)).closeCalled = false ∧
    (runScript fvScript (fun j => decide (j = 5))).closeCalled = false := by
  decide

lemma execFrom_no_close (fails : Nat → Bool) :
    ∀ (steps : List SStep) (start : Nat),
      (∀ s ∈ steps, (s.kind == StepKind.closeStep) = false) →
      (execFrom fails start steps).closeCalled = false := by
  intro steps
  induction steps with
  | nil =>
    intro start _
    rfl
  | cons s rest ih =>
    intro start h
    have hs : (s.kind == StepKind.closeStep) = false := h s (List.mem_cons_self s rest)
    have hrest := ih (start + 1) (fun s' hs' => h s' (List.mem_cons_of_mem s hs'))
    cases hf : fails start with
    | true =>
      cases hm : s.mode with
      | aborts => simp [execFrom, hf, hm]
      | swallows => simp [execFrom, hf, hm, hrest]
    | false => simp [execFrom, hf, hs, hrest]

/-- C7 (amended): only `verify_user_type_dropdown.py`'s main releases the
browser via close() on every exit path (its `finally`);
`frontend_verification_script.py` `run` and `verify_users_tab.py` call
close() only when all steps succeed, and `verify_pagination.py` never calls
close() on any path — those paths rely on the `sync_playwright` context
manager teardown instead. -/
theorem close_on_exit_amended :
    (∀ fails : Nat → Bool, (runScript utdScript fails).closeCalled = true) ∧
    (∀ fails : Nat → Bool, (runScript pgScript fails).closeCalled = false) ∧
    (runScript fvScript (fun _ => false)).closeCalled = true ∧
    (runScript utScript (fun _ => false)).closeCalled = true ∧
    (runScript fvScript (fun j => decide (j = 5))).closeCalled = false ∧
    (runScript utScript (fun j => decide (j = 5))).closeCalled = false := by
  refine ⟨?_, ?_, by decide, by decide, by decide, by decide⟩
  · intro fails
    simp [runScript, utdScript]
  · intro fails
    have h := execFrom_no_close fails pgSteps 1 (by decide)
    simp [runScript, pgScript, h]

/-- C8: in each of the four scripts every route registration precedes the
first (and only) navigation step, and execution is sequential in declaration
order, so no run reaches a navigated state while some route of the run is
not yet installed. -/
theorem routes_installed_before_navigation :
    (regsBeforeNav fvScript = true ∧ registerCount fvScript = 3 ∧ navCount fvScript = 1) ∧
    (regsBeforeNav utdScript = true ∧ registerCount utdScript = 3 ∧ navCount utdScript = 1) ∧
    (regsBeforeNav utScript = true ∧ registerCount utScript = 2 ∧ navCount utScript = 1) ∧
    (regsBeforeNav pgScript = true ∧ registerCount pgScript = 3 ∧ navCount pgScript = 1) := by
  decide

lemma awaitCond_le (cond : Nat → Bool) (timeoutMs interval t : Nat)
    (h : awaitCond cond timeoutMs interval = some t) : t ≤ timeoutMs := by
  have hm : t ∈ pollTimes timeoutMs interval := List.mem_of_find?_eq_some h
  simp only [pollTimes, List.mem_map, List.mem_range] at hm
  obtain ⟨k, hk, hkt⟩ := hm
  subst hkt
  calc k * interval ≤ timeoutMs / interval * interval :=
        Nat.mul_le_mul_right interval (by omega)
    _ ≤ timeoutMs := Nat.div_mul_le_self timeoutMs interval

/-- C5: a polling assertion returns successfully only if the condition held
at one of its polling instants (and that instant is within the timeout), and
the call returns — successfully or not — no later than timeoutMs plus one
polling interval. -/
theorem awaitCond_correct (cond : Nat → Bool) (timeoutMs interval : Nat) :
    (∀ t, awaitCond cond timeoutMs interval = some t →
      cond t = true ∧ t ∈ pollTimes timeoutMs interval ∧ t ≤ timeoutMs) ∧
    blockTime cond timeoutMs interval ≤ timeoutMs + interval := by
  constructor
  · intro t h
    exact ⟨List.find?_some h, List.mem_of_find?_eq_some h,
           awaitCond_le cond timeoutMs interval t h⟩
  · cases h : awaitCond cond timeoutMs interval with
    | some t =>
      have hb : blockTime cond timeoutMs interval = t := by
        unfold blockTime
        rw [h]
      rw [hb]
      have := awaitCond_le cond timeoutMs interval t h
      omega
    | none =>
      have hb : blockTime cond timeoutMs interval =
          timeoutMs / interval * interval + interval := by
        unfold blockTime
        rw [h]
      rw [hb]
      have := Nat.div_mul_le_self timeoutMs interval
      omega

/-- Witness for C5: a condition becoming true 300 ms in, polled at 100 ms
intervals under a 1000 ms timeout. -/
theorem awaitCond_correct_witness :
    ((fun t => decide (t = 300)) 300 = true ∧
      300 ∈ pollTimes 1000 100 ∧ 300 ≤ 1000) ∧
    blockTime (fun t => decide (t = 300)) 1000 100 ≤ 1000 + 100 :=
  ⟨(awaitCond_correct (fun t => decide (t = 300)) 1000 100).1 300 (by decide),
   (awaitCond_correct (fun t => decide (t = 300)) 1000 100).2⟩

lemma strData_append (s t : String) : (s ++ t).data = s.data ++ t.data := by
  cases s
  cases t
  rfl

lemma tokMatch_litToks_append (l : List Char) (ps : List GlobTok) (s : List Char) :
    tokMatch (litToks l ++ ps) (l ++ s) = tokMatch ps s := by
  induction l with
  | nil => rfl
  | cons c t ih =>
    simp only [litToks] at ih
    simp [litToks, tokMatch, ih]

lemma tokMatch_litToks_eq (l : List Char) :
    ∀ u, tokMatch (litToks l) u = true → u = l := by
  induction l with
  | nil =>
    intro u h
    cases u with
    | nil => rfl
    | cons c s => simp [litToks, tokMatch] at h
  | cons c t ih =>
    intro u h
    cases u with
    | nil => simp [litToks, tokMatch] at h
    | cons c2 s =>
      simp only [litToks, List.map_cons, tokMatch, Bool.and_eq_true, beq_iff_eq] at h
      obtain ⟨h1, h2⟩ := h
      have hs := ih s h2
      subst hs
      rw [← h1]

lemma tokMatch_anyAll_intro (ps : List GlobTok) (t u : List Char)
    (h : tokMatch ps u = true) : tokMatch (GlobTok.anyAll :: ps) (t ++ u) = true := by
  have hmem : u ∈ (t ++ u).tails := by
    rw [List.mem_tails]
    exact ⟨t, rfl⟩
  simp only [tokMatch, List.any_eq_true]
  exact ⟨u, hmem, h⟩

lemma tokMatch_anyAll_elim (ps : List GlobTok) (s : List Char)
    (h : tokMatch (GlobTok.anyAll :: ps) s = true) :
    ∃ t u, s = t ++ u ∧ tokMatch ps u = true := by
  simp only [tokMatch, List.any_eq_true] at h
  obtain ⟨u, hmem, hu⟩ := h
  rw [List.mem_tails] at hmem
  obtain ⟨t, ht⟩ := hmem
  exact ⟨t, u, ht.symm, hu⟩

lemma nonSlashTails_nil_mem (s : List Char) (h : ∀ c ∈ s, c ≠ '/') :
    [] ∈ nonSlashTails s := by
  induction s with
  | nil => simp [nonSlashTails]
  | cons c t ih =>
    have hc : (c == '/') = false := by
      have := h c (List.mem_cons_self c t)
      simpa using this
    have ih2 := ih (fun c' hc' => h c' (List.mem_cons_of_mem c hc'))
    simp [nonSlashTails, hc, List.mem_cons, ih2]

lemma tokMatch_anySeg_only (s : List Char) (h : ∀ c ∈ s, c ≠ '/') :
    tokMatch [GlobTok.anySeg] s = true := by
  simp only [tokMatch, List.any_eq_true]
  exact ⟨[], nonSlashTails_nil_mem s h, rfl⟩

lemma noQueryPattern_rejects_query (t0 lit q : List Char)
    (hlit_nq : '?' ∉ lit) (hlit_sl : '/' ∈ lit) (hq : ∀ c ∈ q, c ≠ '/')
    (h : tokMatch (GlobTok.anyAll :: litToks lit) (t0 ++ '?' :: q) = true) : False := by
  obtain ⟨t, u, hsp, hu⟩ := tokMatch_anyAll_elim _ _ h
  have hu2 : u = lit := tokMatch_litToks_eq lit u hu
  rw [hu2] at hsp
  rw [List.append_eq_append_iff] at hsp
  rcases hsp with ⟨a2, _, hb⟩ | ⟨c2, _, hd⟩
  · cases a2 with
    | nil =>
      simp only [List.nil_append] at hb
      exact hlit_nq (hb ▸ List.mem_cons_self '?' q)
    | cons x xs =>
      rw [List.cons_append] at hb
      injection hb with hb1 hb2
      have hmem : '/' ∈ q := by
        rw [hb2]
        exact List.mem_append_right xs hlit_sl
      exact hq '/' hmem rfl
  · have hmem : '?' ∈ lit := by
      rw [hd]
      exact List.mem_append_right c2 (List.mem_cons_self '?' q)
    exact hlit_nq hmem

/-- Counterexample to C9: by the claim, pattern `**/api/users` (which omits
any query component) should accept a matching path with any query string,
but the glob matching the scripts rely on rejects
`http://localhost:3000/api/users?page=2` — without a trailing wildcard the
pattern matches only the bare, query-less URL. -/
theorem query_match_counterexample :
    specClaimMatches ⟨"**/api/users", false⟩
      ⟨"http://localhost:3000/api/users", some "page=2"⟩ = true ∧
    matchRoute "**/api/users"
      (specRequestUrl ⟨"http://localhost:3000/api/users", some "page=2"⟩) = false := by
  decide

/-- C9 (amended): a request matches a pattern exactly when the pattern's glob
matches the full request URL; a pattern ending in a `*` query wildcard
accepts any (slash-free) query string including none, while a pattern that
encodes no query component requires a bare path match and rejects every URL
carrying a query string. -/
theorem query_glob_amended (q : String) (hq : ∀ c ∈ q.data, c ≠ '/') :
    matchRoute "**/api/users" "http://localhost:3000/api/users" = true ∧
    matchRoute "**/api/users" ("http://localhost:3000/api/users?" ++ q) = false ∧
    matchRoute "**/api/youtube/videos*" "http://localhost:4173/api/youtube/videos" = true ∧
    matchRoute "**/api/youtube/videos*"
      ("http://localhost:4173/api/youtube/videos?" ++ q) = true := by
  refine ⟨by decide, ?_, by decide, ?_⟩
  · cases hmr : matchRoute "**/api/users" ("http://localhost:3000/api/users?" ++ q) with
    | false => rfl
    | true =>
      exfalso
      have e1 : ("http://localhost:3000/api/users?" ++ q).data =
          ("http://localhost:3000/api/users").data ++ '?' :: q.data := by
        rw [strData_append]
        rw [show ("http://localhost:3000/api/users?").data =
            ("http://localhost:3000/api/users").data ++ ['?'] from by decide]
        simp [List.append_assoc]
      have e2 : parseGlob ("**/api/users").data =
          GlobTok.anyAll :: litToks ("/api/users").data := by decide
      have h2 : tokMatch (GlobTok.anyAll :: litToks ("/api/users").data)
          (("http://localhost:3000/api/users").data ++ '?' :: q.data) = true := by
        rw [← e2, ← e1]
        exact hmr
      exact noQueryPattern_rejects_query _ _ _ (by decide) (by decide) hq h2
  · have e2v : parseGlob ("**/api/youtube/videos*").data =
        GlobTok.anyAll :: (litToks ("/api/youtube/videos").data ++ [GlobTok.anySeg]) := by
      decide
    have e1v : ("http://localhost:4173/api/youtube/videos?" ++ q).data =
        ("http://localhost:4173").data ++ (("/api/youtube/videos").data ++ '?' :: q.data) := by
      rw [strData_append]
      rw [show ("http://localhost:4173/api/youtube/videos?").data =
          ("http://localhost:4173").data ++ (("/api/youtube/videos").data ++ ['?'])
          from by decide]
      simp [List.append_assoc]
    show tokMatch (parseGlob ("**/api/youtube/videos*").data)
        (("http://localhost:4173/api/youtube/videos?" ++ q).data) = true
    rw [e2v, e1v]
    apply tokMatch_anyAll_intro
    rw [tokMatch_litToks_append]
    apply tokMatch_anySeg_only
    intro c hc
    rcases List.mem_cons.mp hc with h | h
    · subst h
      decide
    · exact hq c h

/-- Witness for the amended C9 at the concrete query string `page=2`. -/
theorem query_glob_amended_witness :
    matchRoute "**/api/users" "http://localhost:3000/api/users" = true ∧
    matchRoute "**/api/users" ("http://localhost:3000/api/users?" ++ "page=2") = false ∧
    matchRoute "**/api/youtube/videos*" "http://localhost:4173/api/youtube/videos" = true ∧
    matchRoute "**/api/youtube/videos*"
      ("http://localhost:4173/api/youtube/videos?" ++ "page=2") = true :=
  query_glob_amended "page=2" (by decide)

end Harness
